import Mathlib

/-
Verification of the multi-platform publisher against its specification.

The repository is a Tauri/React application. The TypeScript frontend
(`src/pages/NewPublish.tsx`, `src/stores/publishStore.ts`, `src/types`) is
embedded directly. The Rust backend behind the `create_publish_task`
command (Task Orchestrator, Per-Account Task Runner, Session Resolver,
aggregation) is not part of the repository snapshot; those components are
modelled from the specification text and marked as such.
-/

namespace Publisher

/-- The `PlatformTaskStatus` string union from `src/unnamed/part_000`
(`pending | uploading | filling | waiting_confirm | published | failed`). -/
inductive PlatformTaskStatus where
  | pending
  | uploading
  | filling
  | waiting_confirm
  | published
  | failed
  deriving DecidableEq, Repr

/-- The `PlatformTaskResult` interface from `src/src/pages/NewPublish.tsx`
(lines 21-31): the boundary-facing outcome of one per-account runner.
Optional / nullable TS fields become `Option`. -/
structure PlatformTaskResult where
  account_id : Int
  platform : String
  status : String
  message : Option String
  error_code : Option String
  action_hint : Option String
  debug_port_used : Option Int
  session_mode : Option String
  automation_phase : Option String
  deriving DecidableEq, Repr

/-- JavaScript truthiness of an optional string: `!x` is true exactly when
`x` is null / undefined or the empty string. -/
def strOptFalsy : Option String → Bool
  | none => true
  | some s => s == ""

/-- The `name` field of the `PLATFORMS` record in `src/unnamed/part_000`,
as looked up by `PLATFORMS[task.platform]?.name`. -/
def platformDisplayName : String → Option String
  | "douyin" => some "抖音"
  | "xiaohongshu" => some "小红书"
  | "bilibili" => some "哔哩哔哩"
  | "wechat" => some "微信视频号"
  | "youtube" => some "YouTube"
  | _ => none

/-- `resolveActionHint` from `src/src/pages/NewPublish.tsx` (lines 489-507):
the Result Classifier mapping a task result to a human-actionable hint. -/
def resolveActionHint (task : PlatformTaskResult) : Option String :=
  let platformName := (platformDisplayName task.platform).getD "目标平台"
  if task.error_code = some "CDP_NO_PAGE" ∨ task.error_code = some "PROFILE_BUSY" then
    some "请先关闭该账号的 Chrome 窗口后重试"
  else if task.error_code = some "TARGET_PAGE_NOT_FOUND" then
    some ("未定位到" ++ platformName ++ "上传页，已尝试新开窗口。请在 Chrome 打开" ++ platformName ++ "上传页后重试")
  else if task.error_code = some "TARGET_PAGE_NOT_READY" then
    some "页面未完成加载，请等待页面稳定后重试"
  else if task.error_code = some "AUTOMATION_TIMEOUT" then
    some "上传可能已开始，请在 Chrome 页面继续并重试提交"
  else if task.session_mode = some "reused_existing" ∧ strOptFalsy task.error_code = true then
    some "已复用已打开的账号窗口，继续自动上传"
  else
    task.action_hint

/-- A Douyin result that failed with `TARGET_PAGE_NOT_FOUND`. -/
def c2TaskDouyin : PlatformTaskResult :=
  { account_id := 1
    platform := "douyin"
    status := "failed"
    message := none
    error_code := some "TARGET_PAGE_NOT_FOUND"
    action_hint := none
    debug_port_used := none
    session_mode := some "launched_new"
    automation_phase := some "automation_failed" }

/-- A Bilibili result identical to `c2TaskDouyin` except for the platform. -/
def c2TaskBilibili : PlatformTaskResult :=
  { c2TaskDouyin with account_id := 2, platform := "bilibili" }

/-- A result carrying a `CDP_NO_PAGE` error, used to instantiate C3. -/
def c3TaskCdp : PlatformTaskResult :=
  { account_id := 3
    platform := "wechat"
    status := "failed"
    message := some "attach failed"
    error_code := some "CDP_NO_PAGE"
    action_hint := none
    debug_port_used := some 9222
    session_mode := some "launched_new"
    automation_phase := some "automation_failed" }

/-- A successful result in a reused session with no error code. -/
def c3TaskReused : PlatformTaskResult :=
  { account_id := 4
    platform := "douyin"
    status := "automated"
    message := none
    error_code := none
    action_hint := none
    debug_port_used := some 9223
    session_mode := some "reused_existing"
    automation_phase := some "upload_started" }

/-- `addTag` from `src/unnamed/part_007` (publish store, lines 108-111):
appends the tag unless it is already present. -/
def addTag (tags : List String) (tag : String) : List String :=
  if tags.contains tag then tags else tags ++ [tag]

/-- `removeTag` from `src/unnamed/part_007` (publish store, lines 112-113):
keeps exactly the tags different from the removed one. -/
def removeTag (tags : List String) (tag : String) : List String :=
  tags.filter (fun t => t ≠ tag)

/-- `toggleAccount` from `src/unnamed/part_007` (publish store, lines 118-123):
removes the id when present, appends it otherwise. -/
def toggleAccount (ids : List Int) (accountId : Int) : List Int :=
  if ids.contains accountId then ids.filter (fun i => i ≠ accountId)
  else ids ++ [accountId]

/-- One user operation on the tag list of the publish form. -/
inductive TagOp where
  | add (tag : String)
  | remove (tag : String)
  deriving DecidableEq, Repr

/-- Apply one tag operation to the current tag list. -/
def applyTagOp (tags : List String) : TagOp → List String
  | .add t => addTag tags t
  | .remove t => removeTag tags t

/-- Run a sequence of tag operations from the initial empty tag list
(`tags: []` in the store's `initialState`). -/
def applyTagOps (ops : List TagOp) : List String :=
  ops.foldl applyTagOp []

/-- Terminal platform-entry statuses: the statuses a runner can end in
(`waiting_confirm` is terminal for automation purposes, spec 4.3). -/
def isTerminal : PlatformTaskStatus → Bool
  | .waiting_confirm => true
  | .published => true
  | .failed => true
  | _ => false

/-- Modelled from the spec: the Task Orchestrator's aggregation rule
(spec 4.4), whose Rust implementation behind `create_publish_task` is not
under src/. Once every entry is terminal: `completed` if all entries are
`published`, `failed` if all are `failed`, `partial` otherwise. The result
is one of the `TaskStatus` strings of `src/unnamed/part_000`. -/
def aggregateStatus (l : List PlatformTaskStatus) : String :=
  if l.all (fun s => s == .published) then "completed"
  else if l.all (fun s => s == .failed) then "failed"
  else "partial"

/-- The request payload sent by `handlePublish` in `src/src/pages/NewPublish.tsx`
(lines 130-139) to the `create_publish_task` backend command. -/
structure PublishRequest where
  video_path : String
  title : String
  description : Option String
  tags : List String
  is_original : Bool
  manual_confirm : Bool
  account_ids : List Int
  deriving DecidableEq, Repr

/-- JavaScript `String.prototype.trim`: whitespace stripped from both ends,
as applied to the title by `handlePublish` and by validation. -/
def jsTrim (s : String) : String :=
  String.mk (((s.data.dropWhile Char.isWhitespace).reverse.dropWhile
    Char.isWhitespace).reverse)

/-- Validation error codes of the Task Orchestrator (spec section 4.4). -/
inductive ValidationError where
  | EMPTY_TITLE
  | NO_ACCOUNTS
  | VIDEO_PATH_MISSING
  deriving DecidableEq, Repr

/-- Modelled from the spec: request validation of the Task Orchestrator
(spec section 4.4), whose Rust implementation behind `create_publish_task`
is not under src/. `EMPTY_TITLE` if the title is blank, `NO_ACCOUNTS` if the
account list is empty, `VIDEO_PATH_MISSING` if the path is empty. -/
def validateRequest (r : PublishRequest) : Option ValidationError :=
  if jsTrim r.title = "" then some .EMPTY_TITLE
  else if r.account_ids = [] then some .NO_ACCOUNTS
  else if r.video_path = "" then some .VIDEO_PATH_MISSING
  else none

/-- Observable side effects of one `submit` call: which accounts had a
session resolution started, and the statuses of tasks persisted by the call. -/
structure SubmitEffects where
  sessionsTouched : List Int
  persistedTaskStatuses : List String
  deriving DecidableEq, Repr

/-- Modelled from the spec: `submit` of the Task Orchestrator (spec section
4.4), not under src/. Validation is synchronous and precedes persistence and
fan-out, so a rejected request produces no effects; an accepted request
persists the task (`pending`, then `publishing` during fan-out) and starts
session resolution for every selected account. -/
def submitModel (r : PublishRequest) :
    Except ValidationError Unit × SubmitEffects :=
  match validateRequest r with
  | some e => (Except.error e, { sessionsTouched := [], persistedTaskStatuses := [] })
  | none => (Except.ok (),
      { sessionsTouched := r.account_ids
        persistedTaskStatuses := ["pending", "publishing"] })

/-- A request with a valid title and video path but no selected accounts. -/
def c4Request : PublishRequest :=
  { video_path := "/videos/demo.mp4"
    title := "发布标题"
    description := none
    tags := []
    is_original := true
    manual_confirm := true
    account_ids := [] }

/-- Modelled from the spec: the Per-Account Task Runner's transition table
for `PublishTaskPlatform.status` (spec sections 4.3 and 5, cancellation
included); the Rust runner is not under src/. `true` exactly for the
transitions the runner may take. -/
def runnerStep : PlatformTaskStatus → PlatformTaskStatus → Bool
  | .pending, .uploading => true
  | .uploading, .filling => true
  | .filling, .waiting_confirm => true
  | .filling, .published => true
  | .pending, .failed => true
  | .uploading, .failed => true
  | .filling, .failed => true
  | _, _ => false

/-- Position of a status along the chain `pending → uploading → filling →
waiting_confirm → published`; `failed` sits outside the chain. -/
def statusRank : PlatformTaskStatus → Nat
  | .pending => 0
  | .uploading => 1
  | .filling => 2
  | .waiting_confirm => 3
  | .published => 4
  | .failed => 5

/-- The automation phase union reported by the driver
(`NewPublish.tsx` line 30, spec section 4.2). -/
inductive AutomationOutcome where
  | upload_started
  | manual_continue
  | automation_failed
  | timeout
  deriving DecidableEq, Repr

/-- The slice of a `PublishTaskPlatform` entry a runner writes back:
final status, optional message, optional error code. -/
structure RunnerReport where
  status : PlatformTaskStatus
  message : Option String
  errorCode : Option String
  deriving DecidableEq, Repr

/-- Modelled from the spec: the outcome-to-status mapping of the Per-Account
Task Runner (spec section 4.3), not under src/. `fullAutoSubmit` is the
driver's indication that full auto-submit completed. -/
def interpretOutcome (o : AutomationOutcome) (fullAutoSubmit : Bool)
    (driverError : Option String) (driverMessage : Option String) :
    RunnerReport :=
  match o with
  | .upload_started =>
    { status := if fullAutoSubmit then .published else .waiting_confirm
      message := none
      errorCode := none }
  | .manual_continue =>
    { status := .waiting_confirm, message := driverMessage, errorCode := none }
  | .automation_failed =>
    { status := .failed, message := driverMessage, errorCode := driverError }
  | .timeout =>
    { status := .failed, message := driverMessage, errorCode := driverError }

/-- The outcome of one Per-Account Task Runner as the orchestrator sees it:
either a boundary result or a raised runner error. -/
inductive RunnerOutcome where
  | ok (result : PlatformTaskResult)
  | error (message : String)
  deriving DecidableEq, Repr

/-- Modelled from the spec: per-entry error capture (spec section 7), not
under src/. A runner error becomes a failed entry for that account and never
escapes to siblings. -/
def captureRunner (accountId : Int) (platform : String) (o : RunnerOutcome) :
    PlatformTaskResult :=
  match o with
  | .ok r => r
  | .error m =>
    { account_id := accountId
      platform := platform
      status := "failed"
      message := some m
      error_code := none
      action_hint := none
      debug_port_used := none
      session_mode := none
      automation_phase := none }

/-- Modelled from the spec: the orchestrator's fan-out (spec section 4.4),
not under src/. One runner per selected account; each entry of the returned
list is produced from the outcome of its own account's runner only. -/
def fanOut (runnerOutcome : Int → String → RunnerOutcome)
    (accounts : List (Int × String)) : List PlatformTaskResult :=
  accounts.map (fun a => captureRunner a.1 a.2 (runnerOutcome a.1 a.2))

/-- A successful concrete runner result used to instantiate C8. -/
def c8OkResult : PlatformTaskResult :=
  { account_id := 1
    platform := "douyin"
    status := "automated"
    message := none
    error_code := none
    action_hint := none
    debug_port_used := some 9230
    session_mode := some "launched_new"
    automation_phase := some "upload_started" }

/-- Runner outcomes where account 2 raises an error and account 1 succeeds. -/
def c8Outcomes : Int → String → RunnerOutcome := fun id _ =>
  if id = 1 then .ok c8OkResult else .error "driver crashed"

/-- Runner outcomes where every account succeeds. -/
def c8OutcomesAllOk : Int → String → RunnerOutcome := fun _ _ => .ok c8OkResult

/-- Claim C2 (counterexample): the classifier is not a function of
`(error_code, session_mode)` alone — two results that agree on both fields
but name different platforms receive different hint strings. -/
theorem resolveActionHint_not_function_of_code_and_mode :
    c2TaskDouyin.error_code = c2TaskBilibili.error_code
    ∧ c2TaskDouyin.session_mode = c2TaskBilibili.session_mode
    ∧ resolveActionHint c2TaskDouyin ≠ resolveActionHint c2TaskBilibili := by
  refine ⟨rfl, rfl, ?_⟩
  decide

/-- Claim C2 (amended): the Result Classifier is pure and deterministic as a
function of the four fields it reads — `(error_code, session_mode, platform,
action_hint)`; two invocations agreeing on those fields return the same hint,
independent of call order, prior state, or any other field. -/
theorem resolveActionHint_function_of_inputs
    (t u : PlatformTaskResult)
    (hcode : t.error_code = u.error_code)
    (hmode : t.session_mode = u.session_mode)
    (hplat : t.platform = u.platform)
    (hhint : t.action_hint = u.action_hint) :
    resolveActionHint t = resolveActionHint u := by
  simp only [resolveActionHint, hcode, hmode, hplat, hhint]

/-- Witness for the amended C2: two concrete results differing only in fields
the classifier ignores get the same hint. -/
theorem resolveActionHint_function_of_inputs_witness :
    resolveActionHint c3TaskReused
      = resolveActionHint { c3TaskReused with account_id := 99, status := "launched" } :=
  resolveActionHint_function_of_inputs _ _ rfl rfl rfl rfl

/-- Claim C3: a result whose error code is `CDP_NO_PAGE` or `PROFILE_BUSY`
always gets the close-the-window-and-retry hint, regardless of session mode,
platform and automation phase; and a result with no error code in a
`reused_existing` session gets the informational continuing hint. -/
theorem resolveActionHint_close_window_and_reused_hints
    (t u : PlatformTaskResult)
    (ht : t.error_code = some "CDP_NO_PAGE" ∨ t.error_code = some "PROFILE_BUSY")
    (hu1 : u.error_code = none)
    (hu2 : u.session_mode = some "reused_existing") :
    resolveActionHint t = some "请先关闭该账号的 Chrome 窗口后重试"
    ∧ resolveActionHint u = some "已复用已打开的账号窗口，继续自动上传" := by
  constructor
  · simp only [resolveActionHint]
    rw [if_pos ht]
  · simp [resolveActionHint, hu1, hu2, strOptFalsy]

/-- Witness for C3 at concrete inputs. -/
theorem resolveActionHint_close_window_and_reused_hints_witness :
    resolveActionHint c3TaskCdp = some "请先关闭该账号的 Chrome 窗口后重试"
    ∧ resolveActionHint c3TaskReused = some "已复用已打开的账号窗口，继续自动上传" :=
  resolveActionHint_close_window_and_reused_hints c3TaskCdp c3TaskReused
    (Or.inl rfl) rfl rfl

theorem contains_iff_mem {α : Type} [BEq α] [LawfulBEq α] (l : List α) (a : α) :
    l.contains a = true ↔ a ∈ l := by
  simp [List.contains, List.elem_iff]

theorem addTag_nodup (tags : List String) (t : String) (h : tags.Nodup) :
    (addTag tags t).Nodup := by
  by_cases hc : tags.contains t = true
  · have hm := (contains_iff_mem tags t).mp hc
    simpa [addTag, hm] using h
  · have hm : t ∉ tags := fun hmem => hc ((contains_iff_mem tags t).mpr hmem)
    simp [addTag, List.nodup_append, h, hm]

theorem removeTag_nodup (tags : List String) (t : String) (h : tags.Nodup) :
    (removeTag tags t).Nodup :=
  h.filter _

theorem foldl_tagOps_nodup :
    ∀ (ops : List TagOp) (tags : List String), tags.Nodup →
      (ops.foldl applyTagOp tags).Nodup
  | [], _, h => h
  | op :: ops, tags, h =>
    foldl_tagOps_nodup ops (applyTagOp tags op)
      (by cases op with
        | add t => exact addTag_nodup tags t h
        | remove t => exact removeTag_nodup tags t h)

/-- Claim C9: `addTag` is idempotent — adding an already-present tag leaves
the list unchanged, `addTag` composed with itself equals a single `addTag`,
and no sequence of add/remove operations from the empty initial tag list
ever produces a duplicate tag. -/
theorem addTag_idempotent_no_duplicates (tags : List String) (t : String)
    (ops : List TagOp) (h : tags.contains t = true) :
    addTag tags t = tags
    ∧ (∀ l u, addTag (addTag l u) u = addTag l u)
    ∧ (applyTagOps ops).Nodup := by
  refine ⟨?_, ?_, foldl_tagOps_nodup ops [] List.nodup_nil⟩
  · have hm := (contains_iff_mem tags t).mp h
    simp [addTag, hm]
  · intro l u
    by_cases hc : u ∈ l
    · simp [addTag, hc]
    · have hc2 : u ∈ l ++ [u] := by simp
      simp [addTag, hc, hc2]

/-- Witness for C9 at a concrete tag list containing the added tag. -/
theorem addTag_idempotent_no_duplicates_witness :
    addTag ["a", "b"] "a" = ["a", "b"]
    ∧ (applyTagOps [.add "a", .add "b", .add "a", .remove "b"]).Nodup := by
  have h := addTag_idempotent_no_duplicates ["a", "b"] "a"
    [.add "a", .add "b", .add "a", .remove "b"] (by decide)
  exact ⟨h.1, h.2.2⟩

/-- Claim C10: on a duplicate-free selection, `toggleAccount a` inverts
exactly the membership of `a`, leaves every other id unchanged, preserves
freedom from duplicates, and applied twice restores the same set of ids. -/
theorem toggleAccount_membership_toggle (ids : List Int) (a : Int)
    (h : ids.Nodup) :
    ((a ∈ toggleAccount ids a) ↔ a ∉ ids)
    ∧ (∀ b, b ≠ a → ((b ∈ toggleAccount ids a) ↔ b ∈ ids))
    ∧ (toggleAccount ids a).Nodup
    ∧ (∀ b, (b ∈ toggleAccount (toggleAccount ids a) a) ↔ b ∈ ids) := by
  by_cases ha : a ∈ ids
  · have hfilter : toggleAccount ids a = ids.filter (fun i => i ≠ a) := by
      simp [toggleAccount, ha]
    have hnotmem : a ∉ ids.filter (fun i => i ≠ a) := by
      simp [List.mem_filter]
    refine ⟨?_, ?_, ?_, ?_⟩
    · simp [hfilter, List.mem_filter, ha]
    · intro b hb
      simp [hfilter, List.mem_filter, hb]
    · rw [hfilter]; exact h.filter _
    · intro b
      rw [hfilter]
      have hstep : toggleAccount (ids.filter (fun i => i ≠ a)) a
          = ids.filter (fun i => i ≠ a) ++ [a] := by
        simp [toggleAccount, hnotmem]
      rw [hstep]
      simp only [List.mem_append, List.mem_filter, List.mem_singleton,
        decide_eq_true_eq]
      constructor
      · rintro (⟨hb, _⟩ | rfl)
        · exact hb
        · exact ha
      · intro hb
        by_cases hba : b = a
        · exact Or.inr hba
        · exact Or.inl ⟨hb, hba⟩
  · have happend : toggleAccount ids a = ids ++ [a] := by
      simp [toggleAccount, ha]
    refine ⟨?_, ?_, ?_, ?_⟩
    · simp [happend, ha]
    · intro b hb
      simp [happend, hb]
    · rw [happend]
      simp [List.nodup_append, h, ha]
    · intro b
      rw [happend]
      have hmem : a ∈ ids ++ [a] := by simp
      have hstep : toggleAccount (ids ++ [a]) a
          = (ids ++ [a]).filter (fun i => i ≠ a) := by
        simp [toggleAccount, hmem]
      rw [hstep]
      simp only [List.mem_filter, List.mem_append, List.mem_singleton,
        decide_eq_true_eq]
      constructor
      · rintro ⟨hb | rfl, hba⟩
        · exact hb
        · exact absurd rfl hba
      · intro hb
        have hba : b ≠ a := fun hba => ha (hba ▸ hb)
        exact ⟨Or.inl hb, hba⟩

/-- Witness for C10 on a concrete duplicate-free selection. -/
theorem toggleAccount_membership_toggle_witness :
    ((3 : Int) ∈ toggleAccount [1, 3, 5] 3 ↔ (3 : Int) ∉ [(1 : Int), 3, 5])
    ∧ (toggleAccount [1, 3, 5] 3).Nodup :=
  let h := toggleAccount_membership_toggle [1, 3, 5] 3 (by decide)
  ⟨h.1, h.2.2.1⟩

theorem all_congr_of_perm {l l' : List PlatformTaskStatus} (hp : l.Perm l')
    (p : PlatformTaskStatus → Bool) : l.all p = l'.all p := by
  apply Bool.eq_iff_iff.mpr
  simp only [List.all_eq_true]
  exact ⟨fun H x hx => H x (hp.mem_iff.mpr hx),
         fun H x hx => H x (hp.mem_iff.mp hx)⟩

/-- Claim C1: once every platform entry of a task is terminal, the aggregated
task status is `completed` when all entries are `published`, `failed` when all
are `failed`, and `partial` otherwise; the rule depends only on the multiset
of terminal statuses, so any reordering of runner completion yields the same
final task status. -/
theorem aggregateStatus_deterministic_of_perm
    (l l' : List PlatformTaskStatus)
    (hne : l ≠ [])
    (hterm : ∀ s ∈ l, isTerminal s = true)
    (hp : l.Perm l') :
    aggregateStatus l = aggregateStatus l'
    ∧ ((∀ s ∈ l, s = .published) → aggregateStatus l = "completed")
    ∧ ((∀ s ∈ l, s = .failed) → aggregateStatus l = "failed")
    ∧ (¬ (∀ s ∈ l, s = .published) → ¬ (∀ s ∈ l, s = .failed) →
        aggregateStatus l = "partial") := by
  refine ⟨?_, ?_, ?_, ?_⟩
  · simp only [aggregateStatus, all_congr_of_perm hp]
  · intro H
    have h1 : l.all (fun s => s == .published) = true :=
      List.all_eq_true.mpr fun x hx => by rw [H x hx]; rfl
    simp [aggregateStatus, h1]
  · intro H
    obtain ⟨x, hx⟩ := List.exists_mem_of_ne_nil l hne
    have h1 : l.all (fun s => s == .published) = false := by
      rw [Bool.eq_false_iff]
      intro hall
      have hxp := List.all_eq_true.mp hall x hx
      rw [H x hx] at hxp
      exact absurd hxp (by decide)
    have h2 : l.all (fun s => s == .failed) = true :=
      List.all_eq_true.mpr fun x hx => by rw [H x hx]; rfl
    simp [aggregateStatus, h1, h2]
  · intro H1 H2
    have h1 : l.all (fun s => s == .published) = false := by
      rw [Bool.eq_false_iff]
      intro hall
      exact H1 fun x hx => beq_iff_eq.mp (List.all_eq_true.mp hall x hx)
    have h2 : l.all (fun s => s == .failed) = false := by
      rw [Bool.eq_false_iff]
      intro hall
      exact H2 fun x hx => beq_iff_eq.mp (List.all_eq_true.mp hall x hx)
    simp [aggregateStatus, h1, h2]

/-- Witness for C1: a mixed pair of terminal outcomes, in both completion
orders, aggregates to `partial` either way. -/
theorem aggregateStatus_deterministic_witness :
    aggregateStatus [.published, .failed] = aggregateStatus [.failed, .published]
    ∧ aggregateStatus [PlatformTaskStatus.published, .failed] = "partial" := by
  have h := aggregateStatus_deterministic_of_perm
    [.published, .failed] [.failed, .published]
    (by decide) (by decide) (List.Perm.swap _ _ _)
  exact ⟨h.1, h.2.2.2 (by decide) (by decide)⟩

/-- Claim C4: validation rejects a blank title with `EMPTY_TITLE`, an empty
account list with `NO_ACCOUNTS`, and an empty video path with
`VIDEO_PATH_MISSING`; every rejection happens before any session is touched
and leaves no persisted task in `publishing` state. -/
theorem submit_validation_rejects_before_sessions (r : PublishRequest) :
    (jsTrim r.title = "" →
      submitModel r = (Except.error .EMPTY_TITLE, ⟨[], []⟩))
    ∧ (jsTrim r.title ≠ "" → r.account_ids = [] →
      submitModel r = (Except.error .NO_ACCOUNTS, ⟨[], []⟩))
    ∧ (jsTrim r.title ≠ "" → r.account_ids ≠ [] → r.video_path = "" →
      submitModel r = (Except.error .VIDEO_PATH_MISSING, ⟨[], []⟩))
    ∧ (∀ e s, submitModel r = (Except.error e, s) →
      s.sessionsTouched = [] ∧ "publishing" ∉ s.persistedTaskStatuses) := by
  refine ⟨?_, ?_, ?_, ?_⟩
  · intro h1
    simp [submitModel, validateRequest, h1]
  · intro h1 h2
    simp [submitModel, validateRequest, h1, h2]
  · intro h1 h2 h3
    simp [submitModel, validateRequest, h1, h2, h3]
  · intro e s hes
    cases hv : validateRequest r with
    | none => simp [submitModel, hv] at hes
    | some err =>
      simp [submitModel, hv] at hes
      rw [← hes.2]
      exact ⟨rfl, by simp⟩

/-- Witness for C4: a request with a non-blank title and empty `accountIds`
is rejected with `NO_ACCOUNTS` and produces no effects. -/
theorem submit_validation_rejects_before_sessions_witness :
    jsTrim c4Request.title ≠ ""
    ∧ submitModel c4Request = (Except.error ValidationError.NO_ACCOUNTS, ⟨[], []⟩) :=
  ⟨by decide,
   (submit_validation_rejects_before_sessions c4Request).2.1 (by decide) rfl⟩

/-- Claim C5 (counterexample): the runner's transition table contains
`filling → published` (taken when the driver indicates full auto-submit
completed), which moves two steps forward along the chain and is not a move
to `failed`, so "the only transitions are one step forward along the chain
or to failed" does not hold as stated. -/
theorem runnerStep_not_single_step :
    runnerStep .filling .published = true
    ∧ PlatformTaskStatus.published ≠ .failed
    ∧ statusRank .published ≠ statusRank .filling + 1 := by
  decide

/-- Claim C5 (amended): a runner never moves an entry backward: every
transition in the table goes strictly forward along the chain or to `failed`,
and every forward transition is a single step except `filling → published`,
which skips `waiting_confirm` when the driver completes full auto-submit. -/
theorem runnerStep_forward_or_failed (a b : PlatformTaskStatus)
    (h : runnerStep a b = true) :
    b = .failed
    ∨ (statusRank a < statusRank b
        ∧ (statusRank b = statusRank a + 1
            ∨ (a = .filling ∧ b = .published))) := by
  cases a <;> cases b <;> revert h <;> decide

/-- Witness for the amended C5 at the `pending → uploading` transition. -/
theorem runnerStep_forward_or_failed_witness :
    runnerStep .pending .uploading = true
    ∧ (PlatformTaskStatus.uploading = .failed
        ∨ (statusRank .pending < statusRank .uploading
            ∧ (statusRank .uploading = statusRank .pending + 1
                ∨ (PlatformTaskStatus.pending = .filling
                    ∧ PlatformTaskStatus.uploading = .published)))) :=
  ⟨by decide, runnerStep_forward_or_failed .pending .uploading (by decide)⟩

/-- Claim C6: the runner maps driver outcomes to entry state as specified:
`upload_started` becomes `waiting_confirm`, or `published` when the driver
indicates full auto-submit completed; `manual_continue` becomes
`waiting_confirm` with the message set; `automation_failed` and `timeout`
become `failed` with the driver's error code attached to the entry. -/
theorem interpretOutcome_mapping (auto : Bool) (code msg : Option String) :
    (interpretOutcome .upload_started false code msg).status = .waiting_confirm
    ∧ (interpretOutcome .upload_started true code msg).status = .published
    ∧ interpretOutcome .manual_continue auto code msg
        = { status := .waiting_confirm, message := msg, errorCode := none }
    ∧ (interpretOutcome .automation_failed auto code msg).status = .failed
    ∧ (interpretOutcome .automation_failed auto code msg).errorCode = code
    ∧ (interpretOutcome .timeout auto code msg).status = .failed
    ∧ (interpretOutcome .timeout auto code msg).errorCode = code :=
  ⟨rfl, rfl, rfl, rfl, rfl, rfl, rfl⟩

/-- Claim C8: the fan-out returns exactly one result per selected account,
and each entry is a function of its own runner's outcome only, so an error
raised by one runner (captured into that runner's own failed entry) never
aborts or alters any sibling's entry. -/
theorem fanOut_per_entry_isolation
    (f g : Int → String → RunnerOutcome) (accounts : List (Int × String))
    (hlen : 2 ≤ accounts.length) (i : Nat) (a : Int × String)
    (ha : accounts[i]? = some a) (hfg : f a.1 a.2 = g a.1 a.2) :
    (fanOut f accounts).length = accounts.length
    ∧ (fanOut f accounts)[i]? = some (captureRunner a.1 a.2 (f a.1 a.2))
    ∧ (fanOut f accounts)[i]? = (fanOut g accounts)[i]? := by
  refine ⟨by simp [fanOut], ?_, ?_⟩
  · simp [fanOut, List.getElem?_map, ha]
  · simp [fanOut, List.getElem?_map, ha, hfg]

/-- Witness for C8: with two accounts where the second runner raises, the
first entry equals what the all-successful run produces. -/
theorem fanOut_per_entry_isolation_witness :
    (fanOut c8Outcomes [(1, "douyin"), (2, "bilibili")]).length = 2
    ∧ (fanOut c8Outcomes [(1, "douyin"), (2, "bilibili")])[0]?
        = some (captureRunner 1 "douyin" (c8Outcomes 1 "douyin"))
    ∧ (fanOut c8Outcomes [(1, "douyin"), (2, "bilibili")])[0]?
        = (fanOut c8OutcomesAllOk [(1, "douyin"), (2, "bilibili")])[0]? := by
  have h := fanOut_per_entry_isolation c8Outcomes c8OutcomesAllOk
    [(1, "douyin"), (2, "bilibili")] (by decide) 0 (1, "douyin") rfl (by decide)
  exact ⟨h.1, h.2.1, h.2.2⟩

end Publisher
